import Mathlib

/-!
Shallow embedding of the `featureflag` crate's core: the value type
(`src/featureflag/src/value.rs`), the context tree
(`src/featureflag/src/context.rs`), the context stack
(`src/featureflag/src/context/stack.rs`), the evaluator resolution registry
(`src/featureflag/src/evaluator/global.rs`), the evaluator combinators
(`src/featureflag/src/evaluator.rs`) and the feature facade
(`src/featureflag/src/feature.rs`).

Evaluator instances (`Arc<dyn Evaluator>`) are identified by a natural number
`EvalId`; a `World` records which instances are still strongly held (so that a
weak reference upgrades) and each instance's `is_enabled` behaviour.  The
per-context extension store and the field set are not modelled: no property
verified here observes them, and the `on_new_context` hook can only mutate the
extension store (a `ContextRef` exposes `extensions_mut` but no way to change
the `evaluator` or `parent` fields of the context under construction).
-/

namespace Featureflag

/-! ## Values (`value.rs`) -/

/-- Rust's `Cow<'a, T>`: either a borrowed view or an owned copy of a payload.
`clone().into_owned()` yields the payload in both cases. -/
inductive Cow (α : Type) where
  | borrowed (a : α)
  | owned (a : α)
deriving DecidableEq

/-- `Cow::into_owned`: extract the payload, cloning a borrowed one. -/
def Cow.intoOwned {α : Type} : Cow α → α
  | .borrowed a => a
  | .owned a => a

/-- `Value<'a>` from `value.rs`: a tagged scalar.  String and byte payloads sit
behind a `Cow`; the `f64` payload is carried as its 64-bit pattern, since the
code only ever copies it (`Value::F64(x) => Value::F64(*x)`). -/
inductive Value where
  | str (s : Cow String)
  | bytes (b : Cow (List Nat))
  | bool (b : Bool)
  | i64 (n : Int)
  | u64 (n : Nat)
  | f64 (bits : Nat)
  | null
deriving DecidableEq

/-- `Value::to_static`: deep-copy any borrowed payload into an owned one
(`Cow::Owned(s.clone().into_owned())`), carry scalar payloads over unchanged. -/
def Value.to_static : Value → Value
  | .str s => .str (.owned s.intoOwned)
  | .bytes b => .bytes (.owned b.intoOwned)
  | .bool b => .bool b
  | .u64 n => .u64 n
  | .i64 n => .i64 n
  | .f64 x => .f64 x
  | .null => .null

/-- The variant tag of a `Value`: 0 = Str, 1 = Bytes, 2 = Bool, 3 = I64,
4 = U64, 5 = F64, 6 = Null. -/
def Value.tag : Value → Nat
  | .str _ => 0
  | .bytes _ => 1
  | .bool _ => 2
  | .i64 _ => 3
  | .u64 _ => 4
  | .f64 _ => 5
  | .null => 6

/-- `Value::as_str`: the string content if the value is a string (a `&str`
view of the `Cow`, so indifferent to ownership). -/
def Value.as_str : Value → Option String
  | .str s => some s.intoOwned
  | _ => none

/-- `Value::as_bytes`. -/
def Value.as_bytes : Value → Option (List Nat)
  | .bytes b => some b.intoOwned
  | _ => none

/-- `Value::as_bool`. -/
def Value.as_bool : Value → Option Bool
  | .bool b => some b
  | _ => none

/-- `Value::as_i64`. -/
def Value.as_i64 : Value → Option Int
  | .i64 n => some n
  | _ => none

/-- `Value::as_u64`. -/
def Value.as_u64 : Value → Option Nat
  | .u64 n => some n
  | _ => none

/-- `Value::as_f64` (as the 64-bit pattern of the float). -/
def Value.as_f64 : Value → Option Nat
  | .f64 x => some x
  | _ => none

/-- `Value::is_null`. -/
def Value.is_null : Value → Bool
  | .null => true
  | _ => false

/-! ## Evaluator instances and the resolution registry (`global.rs`) -/

/-- Identity of one evaluator instance (one `Arc<dyn Evaluator>`). -/
abbrev EvalId := Nat

/-- A `WeakEvaluatorRef`: `none` is the detached reference produced by
`WeakEvaluatorRef::new()`, `some i` is `EvaluatorRef::downgrade` of the
instance `i`. -/
abbrev WeakRef := Option EvalId

/-- The state of the three registry tiers on one thread:
`TASK_EVALUATOR` (the innermost dynamic override), this thread's
`THREAD_EVALUATOR` slot, and the process-wide `GLOBAL_EVALUATOR` slot. -/
structure Registry where
  override : Option EvalId
  thread : Option EvalId
  globalSlot : Option EvalId
deriving DecidableEq

/-- `get_default` (`global.rs`): the task override, else the thread slot, else
the global slot, else none.  A pure read: it does not change any slot. -/
def get_default (st : Registry) : Option EvalId :=
  (st.override.orElse fun _ => st.thread).orElse fun _ => st.globalSlot

/-! ## Contexts (`context.rs`) -/

/-- `Context`: the root marker `Context { data: None }`, or a node holding the
weak evaluator reference snapshotted at construction and the stored `parent`
field of its `Data` (the extension store is not modelled). -/
inductive Context where
  | root : Context
  | node (evaluator : WeakRef) (parent : Option Context) : Context

/-- `Context::is_root`: true iff `data` is `None`. -/
def Context.is_root : Context → Bool
  | .root => true
  | .node _ _ => false

/-- The `evaluator` field stored in a context's `Data` (detached for root,
which stores no data at all). -/
def Context.snapshot : Context → WeakRef
  | .root => none
  | .node e _ => e

/-- The `parent` field stored in a context's `Data`. -/
def Context.storedParent : Context → Option Context
  | .root => none
  | .node _ p => p

/-- `Context::parent`: `none` for the root; for a node, the stored parent, or
the root singleton when no parent is stored
(`data.parent.as_ref().or(Some(&Context::root()))`). -/
def Context.parent : Context → Option Context
  | .root => none
  | .node _ (some p) => some p
  | .node _ none => some .root

/-- `Context::iter`: `std::iter::successors(Some(self), |c| c.parent())`,
materialised as the (finite) list it produces. -/
def Context.iter : Context → List Context
  | .root => [.root]
  | .node e (some p) => .node e (some p) :: p.iter
  | .node e none => .node e none :: [.root]

/-- `Context::new_with_parent` (fields and the `on_new_context` hook omitted:
the hook can only touch the extension store).  A root parent is collapsed to
no parent; the current default evaluator, when present, is downgraded into the
snapshot, and otherwise the detached `WeakEvaluatorRef::new()` is stored. -/
def Context.new_with_parent (st : Registry) (parent : Option Context) : Context :=
  let parent' : Option Context :=
    match parent with
    | some p => if p.is_root then none else some p
    | none => none
  .node (get_default st) parent'

/-! ## The world of live evaluator instances -/

/-- Which evaluator instances are still strongly held somewhere, and each
instance's `Evaluator::is_enabled` behaviour. -/
structure World where
  live : EvalId → Bool
  enabled : EvalId → String → Context → Option Bool

/-- `WeakEvaluatorRef::upgrade`: succeeds exactly when the referent is still
strongly held; the detached reference never upgrades. -/
def WeakRef.upgrade (w : World) : WeakRef → Option EvalId
  | none => none
  | some i => if w.live i then some i else none

/-- `Context::evaluator`: a node upgrades its snapshot; the root context
re-resolves the registry live (`get_default`). -/
def Context.evaluator (w : World) (st : Registry) : Context → Option EvalId
  | .root => get_default st
  | .node e _ => WeakRef.upgrade w e

/-! ## The feature facade (`feature.rs`) -/

/-- `Feature { name, default_fn }`. -/
structure Feature where
  name : String
  default_fn : Unit → Bool

/-- `Feature::get_state_in`: substitute the root context for an absent one,
resolve the context's evaluator, and ask it; `None` when the evaluator is
absent or abstains. -/
def Feature.get_state_in (f : Feature) (w : World) (st : Registry)
    (context : Option Context) : Option Bool :=
  let c := context.getD .root
  (c.evaluator w st).bind fun i => w.enabled i f.name c

/-- `Feature::is_enabled_in`: `get_state_in` with the feature's default
applied on abstention. -/
def Feature.is_enabled_in (f : Feature) (w : World) (st : Registry)
    (context : Option Context) : Bool :=
  (f.get_state_in w st context).getD (f.default_fn ())

/-! ## Scoped operations (`context/stack.rs` and `global.rs`)

A body passed to a scoped operation is modelled as a state transformer that
returns an `Outcome`: either a normal value or an unwinding panic carrying a
payload.  `catch_unwind` turns the outcome into data, the trailing restore
writes the saved value back unconditionally, and `resume_unwind` re-raises a
panic payload unchanged. -/

/-- The way a body terminates: normally with a value, or by panicking with a
payload (payloads are identified by a natural number). -/
inductive Outcome (R : Type) where
  | ok (r : R)
  | panicked (payload : Nat)
deriving DecidableEq

/-- `ContextStack::in_scope`: save the thread's current-context cell, install
`context`, run the body under `catch_unwind`, write the saved value back, and
pass a normal result through / `resume_unwind` a panic payload unchanged.
The body receives the cell's state and may overwrite it; the restore
overwrites whatever the body left behind. -/
def in_scope {R : Type} (context : Context)
    (f : Option Context → Outcome R × Option Context)
    (current : Option Context) : Outcome R × Option Context :=
  let old_context := current
  let result := (f (some context)).1
  (match result with
   | .ok r => .ok r
   | .panicked payload => .panicked payload,
   old_context)

/-- `with_default_no_registration` (`global.rs`): save `TASK_EVALUATOR`,
install `evaluator`, run the body under `catch_unwind`, restore the saved
override (the thread and global slots keep whatever the body did to them),
then pass the result through / `resume_unwind` unchanged. -/
def with_default_no_registration {R : Type} (evaluator : EvalId)
    (f : Registry → Outcome R × Registry) (st : Registry) :
    Outcome R × Registry :=
  let old_thread_evaluator := st.override
  let (result, st') := f { st with override := some evaluator }
  (match result with
   | .ok r => .ok r
   | .panicked payload => .panicked payload,
   { st' with override := old_thread_evaluator })

/-- `with_default` (`global.rs`): `evaluator.on_registration()` followed by
`with_default_no_registration`.  The third component records the
`on_registration` invocations the operation itself performs: exactly one, for
`evaluator`, on entry. -/
def with_default {R : Type} (evaluator : EvalId)
    (f : Registry → Outcome R × Registry) (st : Registry) :
    Outcome R × Registry × List EvalId :=
  let (result, st') := with_default_no_registration evaluator f st
  (result, st', [evaluator])

/-- Error returned by `try_set_global_default` when the global evaluator is
already set (`SetGlobalDefaultError { _private: () }`). -/
structure SetGlobalDefaultError where
deriving DecidableEq

/-- Error returned by `try_set_thread_default` when the thread evaluator is
already set. -/
structure SetThreadDefaultError where
deriving DecidableEq

/-- `try_set_global_default`: `GLOBAL_EVALUATOR.get_or_init` runs the
initialiser only when the slot is empty; `Ok` exactly when this call
initialised the slot, `Err` otherwise, the existing registration untouched.
The third component records the `on_registration` invocations the call
performs: the source performs none (the hook is invoked only by
`with_default`). -/
def try_set_global_default (evaluator : EvalId) (st : Registry) :
    Except SetGlobalDefaultError Unit × Registry × List EvalId :=
  match st.globalSlot with
  | none => (.ok (), { st with globalSlot := some evaluator }, [])
  | some _ => (.error ⟨⟩, st, [])

/-- `try_set_thread_default`: the same single-assignment semantics on this
thread's `THREAD_EVALUATOR` `OnceCell`; no `on_registration` invocation. -/
def try_set_thread_default (evaluator : EvalId) (st : Registry) :
    Except SetThreadDefaultError Unit × Registry × List EvalId :=
  match st.thread with
  | none => (.ok (), { st with thread := some evaluator }, [])
  | some _ => (.error ⟨⟩, st, [])

/-! ## Evaluator combinators (`evaluator.rs`) -/

/-- The `is_enabled` behaviour of an evaluator, as a function. -/
abbrev EvalFn := String → Context → Option Bool

/-- `Chain<T, U>(T, U)`: the pair of chained evaluators (fields `.0`, `.1`). -/
structure Chain where
  fst : EvalFn
  snd : EvalFn

/-- `Chain::is_enabled`:
`self.0.is_enabled(...).or_else(|| self.1.is_enabled(...))`. -/
def Chain.is_enabled (c : Chain) (feature : String) (context : Context) :
    Option Bool :=
  (c.fst feature context).orElse fun _ => c.snd feature context

/-! ## Concrete fixtures used for instantiating the theorems -/

/-- A world where every evaluator instance is live and answers `Some(true)`. -/
def wTest : World := ⟨fun _ => true, fun _ _ _ => some true⟩

/-- A concrete feature with default `false`. -/
def fTest : Feature := ⟨"feat", fun _ => false⟩

/-- A concrete non-root context whose snapshot points at evaluator `0`. -/
def cTest : Context := .node (some 0) none

/-- The empty registry: no tier set. -/
def rEmpty : Registry := ⟨none, none, none⟩

/-- A registry with only the global slot set (to evaluator `1`). -/
def rGlobal1 : Registry := ⟨none, none, some 1⟩

/-- Evaluator A of the chain-fallback example: `Some(true)` for `"x"`,
abstains otherwise. -/
def evalA : EvalFn := fun feature _ => if feature = "x" then some true else none

/-- Evaluator B of the chain-fallback example: `Some(false)` for `"x"`,
`Some(true)` for `"y"`, abstains otherwise. -/
def evalB : EvalFn := fun feature _ =>
  if feature = "x" then some false
  else if feature = "y" then some true
  else none

/-! ## Theorems -/

/-- C9: `to_static` is idempotent — `v.to_static().to_static() ==
v.to_static()` — and preserves the variant tag and the payload content
exactly (string and byte payloads become owned deep copies with the same
content; bool, i64, u64, f64 and null are carried over unchanged). -/
theorem to_static_idempotent_and_preserving :
    ∀ v : Value,
      v.to_static.to_static = v.to_static ∧
      v.to_static.tag = v.tag ∧
      v.to_static.as_str = v.as_str ∧
      v.to_static.as_bytes = v.as_bytes ∧
      v.to_static.as_bool = v.as_bool ∧
      v.to_static.as_i64 = v.as_i64 ∧
      v.to_static.as_u64 = v.as_u64 ∧
      v.to_static.as_f64 = v.as_f64 ∧
      v.to_static.is_null = v.is_null := by
  intro v
  cases v <;>
    simp [Value.to_static, Value.tag, Value.as_str, Value.as_bytes,
      Value.as_bool, Value.as_i64, Value.as_u64, Value.as_f64, Value.is_null,
      Cow.intoOwned]

/-- C5: `Chain(A,B).is_enabled(n,C)` is A's answer when definite, else B's
answer; it abstains iff both abstain; and on the concrete example pair
(A: `Some(true)` for "x" only; B: `Some(false)` for "x", `Some(true)` for
"y") the chain answers `Some(true)` for "x", `Some(true)` for "y" and `None`
for "z". -/
theorem chain_first_definite_answer_wins :
    ∀ (a b : EvalFn) (n : String) (c : Context),
      (Chain.is_enabled ⟨a, b⟩ n c =
        match a n c with
        | some v => some v
        | none => b n c) ∧
      (Chain.is_enabled ⟨a, b⟩ n c = none ↔ a n c = none ∧ b n c = none) ∧
      Chain.is_enabled ⟨evalA, evalB⟩ "x" Context.root = some true ∧
      Chain.is_enabled ⟨evalA, evalB⟩ "y" Context.root = some true ∧
      Chain.is_enabled ⟨evalA, evalB⟩ "z" Context.root = none := by
  intro a b n c
  refine ⟨?_, ?_, by decide, by decide, by decide⟩ <;>
    cases h : a n c <;> simp [Chain.is_enabled, Option.orElse, h]

/-- C2: `get_default` observes strict three-tier precedence — the task
override if installed, else the thread slot, else the global slot, else no
evaluator; with global=G, thread=T, override=O all set it yields O; after
O's scope exits (modelled by `with_default_no_registration` around a body
that does nothing) the registry is back to thread=T and resolution yields T;
with only G set it yields G. -/
theorem get_default_three_tier_precedence :
    ∀ (st : Registry) (o t g : EvalId),
      (get_default st =
        match st.override with
        | some e => some e
        | none =>
          match st.thread with
          | some e => some e
          | none => st.globalSlot) ∧
      get_default ⟨some o, some t, some g⟩ = some o ∧
      (with_default_no_registration o (fun s => (Outcome.ok 0, s))
          ⟨none, some t, some g⟩).2 = ⟨none, some t, some g⟩ ∧
      get_default ⟨none, some t, some g⟩ = some t ∧
      get_default ⟨none, none, some g⟩ = some g ∧
      get_default rEmpty = none := by
  intro st o t g
  refine ⟨?_, rfl, rfl, rfl, rfl, rfl⟩
  cases h : st.override <;>
    cases h' : st.thread <;>
      simp [get_default, Option.orElse, h, h']

/-- C3: for every body passed to `in_scope` or to `with_default` (and its
core `with_default_no_registration`), the operation's outcome is exactly the
body's outcome — a normal value is returned unchanged, a panic payload is
re-raised unchanged, never swallowed or replaced — and the previously
current context / previously installed override is restored on exit in both
cases. -/
theorem scoped_restore_and_reraise :
    ∀ (R : Type) (ctx : Context) (f : Option Context → Outcome R × Option Context)
      (current : Option Context) (e : EvalId)
      (g : Registry → Outcome R × Registry) (st : Registry),
      (in_scope ctx f current).1 = (f (some ctx)).1 ∧
      (in_scope ctx f current).2 = current ∧
      (with_default_no_registration e g st).1 =
        (g { st with override := some e }).1 ∧
      (with_default_no_registration e g st).2.override = st.override ∧
      (with_default e g st).1 = (g { st with override := some e }).1 ∧
      (with_default e g st).2.1.override = st.override := by
  intro R ctx f current e g st
  refine ⟨?_, rfl, ?_, rfl, ?_, rfl⟩ <;>
    first
      | (cases h : (f (some ctx)).1 <;> simp [in_scope, h])
      | (cases h : (g { st with override := some e }).1 <;>
          simp [with_default, with_default_no_registration, h])

/-- C4: registration is single-assignment and atomic on failure, for the
global slot and likewise the thread slot: starting from an empty slot, the
first `try_set_global_default` returns `Ok` and installs its evaluator; a
second call returns the already-set error, leaves the whole registry exactly
as the first call left it, and resolution still yields the first evaluator. -/
theorem try_set_default_single_assignment :
    ∀ (st : Registry) (e₁ e₂ : EvalId),
      st.override = none → st.thread = none → st.globalSlot = none →
      (try_set_global_default e₁ st).1 = .ok () ∧
      (try_set_global_default e₁ st).2.1.globalSlot = some e₁ ∧
      (try_set_global_default e₂ (try_set_global_default e₁ st).2.1).1 =
        .error ⟨⟩ ∧
      (try_set_global_default e₂ (try_set_global_default e₁ st).2.1).2.1 =
        (try_set_global_default e₁ st).2.1 ∧
      get_default
        (try_set_global_default e₂ (try_set_global_default e₁ st).2.1).2.1 =
        some e₁ ∧
      (try_set_thread_default e₁ st).1 = .ok () ∧
      (try_set_thread_default e₁ st).2.1.thread = some e₁ ∧
      (try_set_thread_default e₂ (try_set_thread_default e₁ st).2.1).1 =
        .error ⟨⟩ ∧
      (try_set_thread_default e₂ (try_set_thread_default e₁ st).2.1).2.1 =
        (try_set_thread_default e₁ st).2.1 ∧
      get_default
        (try_set_thread_default e₂ (try_set_thread_default e₁ st).2.1).2.1 =
        some e₁ := by
  intro st e₁ e₂ ho ht hg
  obtain ⟨o, t, g⟩ := st
  cases ho; cases ht; cases hg
  simp [try_set_global_default, try_set_thread_default, get_default,
    Option.orElse]

/-- Witness for C4 at the empty registry with evaluators 0 and 1. -/
theorem try_set_default_single_assignment_witness :
    (rEmpty.override = none ∧ rEmpty.thread = none ∧
      rEmpty.globalSlot = none) ∧
    ((try_set_global_default 0 rEmpty).1 = .ok () ∧
      (try_set_global_default 0 rEmpty).2.1.globalSlot = some 0 ∧
      (try_set_global_default 1 (try_set_global_default 0 rEmpty).2.1).1 =
        .error ⟨⟩ ∧
      (try_set_global_default 1 (try_set_global_default 0 rEmpty).2.1).2.1 =
        (try_set_global_default 0 rEmpty).2.1 ∧
      get_default
        (try_set_global_default 1 (try_set_global_default 0 rEmpty).2.1).2.1 =
        some 0 ∧
      (try_set_thread_default 0 rEmpty).1 = .ok () ∧
      (try_set_thread_default 0 rEmpty).2.1.thread = some 0 ∧
      (try_set_thread_default 1 (try_set_thread_default 0 rEmpty).2.1).1 =
        .error ⟨⟩ ∧
      (try_set_thread_default 1 (try_set_thread_default 0 rEmpty).2.1).2.1 =
        (try_set_thread_default 0 rEmpty).2.1 ∧
      get_default
        (try_set_thread_default 1 (try_set_thread_default 0 rEmpty).2.1).2.1 =
        some 0) :=
  ⟨⟨rfl, rfl, rfl⟩,
    try_set_default_single_assignment rEmpty 0 1 rfl rfl rfl⟩

/-- C8: constructing a context whose chosen parent is the root marker stores
no parent at all — the resulting context is identical to one constructed
with no parent — and the stored parent field of a constructed context is
never the root context. -/
theorem new_with_parent_collapses_root :
    ∀ (st : Registry) (p : Option Context),
      Context.new_with_parent st (some Context.root) =
        Context.new_with_parent st none ∧
      (Context.new_with_parent st p).storedParent ≠ some Context.root := by
  intro st p
  constructor
  · rfl
  · cases p with
    | none => simp [Context.new_with_parent, Context.storedParent]
    | some q =>
      cases q <;>
        simp [Context.new_with_parent, Context.storedParent, Context.is_root]

/-- Every iteration ends with the root marker: `Context::parent` substitutes
the root singleton for an absent stored parent, and the root's own parent is
none. -/
theorem iter_ends_at_root : ∀ c : Context,
    ∃ l : List Context, c.iter = l ++ [Context.root]
  | .root => ⟨[], rfl⟩
  | .node e none => ⟨[.node e none], rfl⟩
  | .node e (some p) =>
    match iter_ends_at_root p with
    | ⟨l, h⟩ => ⟨.node e (some p) :: l, by simp [Context.iter, h]⟩

/-- C7 (amended): `C.iter()` yields C itself first, then each ancestor by
following `parent()`, terminating at the first context whose `parent()` is
none; the iteration is a finite list and, being a pure function of C, is
restartable; but the root marker is the final element of every iteration —
`parent()` of a parentless non-root context yields the root singleton, so
the iterated ancestor chain always contains the root. -/
theorem iter_self_then_ancestors :
    ∀ c : Context,
      (c.iter = c ::
        (match c.parent with
         | some p => p.iter
         | none => [])) ∧
      c.iter.head? = some c ∧
      c.iter ≠ [] ∧
      Context.root ∈ c.iter ∧
      c.iter.getLast? = some Context.root := by
  intro c
  obtain ⟨l, h⟩ := iter_ends_at_root c
  refine ⟨?_, ?_, ?_, ?_, ?_⟩
  · cases c with
    | root => rfl
    | node e p => cases p <;> rfl
  · cases c with
    | root => rfl
    | node e p => cases p <;> rfl
  · cases c with
    | root => simp [Context.iter]
    | node e p => cases p <;> simp [Context.iter]
  · simp [h]
  · simp [h]

/-- C7 counterexample: for the context built by `new_with_parent` with no
parent under an empty registry, `iter()` yields the context and then the
root marker — the ancestor chain does contain an explicit root node,
contrary to the claim's final conjunct. -/
theorem iter_contains_root_counterexample :
    (Context.new_with_parent rEmpty none).iter =
      [Context.node none none, Context.root] ∧
    Context.root ∈ (Context.new_with_parent rEmpty none).iter ∧
    Context.root ∈ ((Context.new_with_parent rEmpty none).iter).drop 1 := by
  refine ⟨rfl, ?_, ?_⟩ <;>
    simp [Context.new_with_parent, Context.iter, get_default, rEmpty,
      Option.orElse]

/-- C1: for a non-root context, `get_state_in(Some(C))` asks the evaluator
upgraded from C's construction-time weak snapshot and is entirely
independent of the ambient registry at query time (identical under any two
registry states); the snapshot of a constructed context is exactly the
resolution at construction; and only the absent-context and root-context
paths resolve the registry live at query time. -/
theorem get_state_in_pinned_to_snapshot :
    ∀ (f : Feature) (w : World) (st st' : Registry) (c : Context)
      (p : Option Context),
      c.is_root = false →
      (f.get_state_in w st (some c) =
        (WeakRef.upgrade w c.snapshot).bind fun i => w.enabled i f.name c) ∧
      f.get_state_in w st (some c) = f.get_state_in w st' (some c) ∧
      (Context.new_with_parent st p).snapshot = get_default st ∧
      f.get_state_in w st none =
        ((get_default st).bind fun i => w.enabled i f.name Context.root) ∧
      f.get_state_in w st (some Context.root) =
        ((get_default st).bind fun i => w.enabled i f.name Context.root) := by
  intro f w st st' c p h
  cases c with
  | root => simp [Context.is_root] at h
  | node e par =>
    refine ⟨rfl, rfl, rfl, rfl, rfl⟩

/-- Witness for C1 at a concrete non-root context, feature, world, and two
distinct registry states. -/
theorem get_state_in_pinned_to_snapshot_witness :
    cTest.is_root = false ∧
    ((fTest.get_state_in wTest rEmpty (some cTest) =
        (WeakRef.upgrade wTest cTest.snapshot).bind fun i =>
          wTest.enabled i fTest.name cTest) ∧
      fTest.get_state_in wTest rEmpty (some cTest) =
        fTest.get_state_in wTest rGlobal1 (some cTest) ∧
      (Context.new_with_parent rEmpty none).snapshot = get_default rEmpty ∧
      fTest.get_state_in wTest rEmpty none =
        ((get_default rEmpty).bind fun i =>
          wTest.enabled i fTest.name Context.root) ∧
      fTest.get_state_in wTest rEmpty (some Context.root) =
        ((get_default rEmpty).bind fun i =>
          wTest.enabled i fTest.name Context.root)) :=
  ⟨rfl, get_state_in_pinned_to_snapshot fTest wTest rEmpty rGlobal1 cTest
    none rfl⟩

/-- C10: a context constructed while no evaluator is resolvable stores the
detached weak reference; under every later world and registry state —
including ones where a global or thread evaluator has since been registered —
`get_state_in` on that context is `None` and `is_enabled_in` is the
feature's own default. -/
theorem detached_context_stays_detached :
    ∀ (st0 : Registry) (p : Option Context) (w : World) (st' : Registry)
      (f : Feature),
      get_default st0 = none →
      (Context.new_with_parent st0 p).snapshot = none ∧
      f.get_state_in w st' (some (Context.new_with_parent st0 p)) = none ∧
      f.is_enabled_in w st' (some (Context.new_with_parent st0 p)) =
        f.default_fn () := by
  intro st0 p w st' f h
  simp [Context.new_with_parent, Context.snapshot, Feature.get_state_in,
    Feature.is_enabled_in, Context.evaluator, WeakRef.upgrade, h]

/-- Witness for C10: a context built under the empty registry, queried under
a registry whose global slot was set afterwards. -/
theorem detached_context_stays_detached_witness :
    get_default rEmpty = none ∧
    ((Context.new_with_parent rEmpty none).snapshot = none ∧
      fTest.get_state_in wTest rGlobal1
        (some (Context.new_with_parent rEmpty none)) = none ∧
      fTest.is_enabled_in wTest rGlobal1
        (some (Context.new_with_parent rEmpty none)) = fTest.default_fn ()) :=
  ⟨rfl, detached_context_stays_detached rEmpty none wTest rGlobal1 fTest rfl⟩

/-- C6: the code contradicts the claim (and its own `on_registration` doc
comment) for the write-once tiers: a successful `try_set_global_default` or
`try_set_thread_default` installs the evaluator without any
`on_registration` invocation; only `with_default` invokes the hook (exactly
once, for its evaluator). -/
theorem registration_hook_skipped_on_slot_install :
    (try_set_global_default 0 rEmpty).1 = .ok () ∧
    (try_set_global_default 0 rEmpty).2.1.globalSlot = some 0 ∧
    (try_set_global_default 0 rEmpty).2.2 = [] ∧
    (try_set_thread_default 0 rEmpty).1 = .ok () ∧
    (try_set_thread_default 0 rEmpty).2.1.thread = some 0 ∧
    (try_set_thread_default 0 rEmpty).2.2 = [] ∧
    (with_default 0 (fun s => (Outcome.ok 0, s)) rEmpty).2.2 = [0] :=
  ⟨rfl, rfl, rfl, rfl, rfl, rfl, rfl⟩

end Featureflag
